import Mathlib

/-!
Shallow embedding of src/libvirtnbdbackup/qemuhelper/qemuhelper.py.

The module defines a dataclass `processInfo`, and a class `qemuHelper` with
six command builders (create, map, startRestoreNbdServer, startNbdkitProcess,
startBackupNbdServer, disconnect), a launcher `runcmd`, and two diagnostic
helpers `_readlog` / `_readpipe`.

The Python code interacts with the operating system (spawning a child,
waiting on it, reading temporary files and pipes).  All such interactions are
modelled by an explicit environment record `Env` which records the outcome of
the single launch performed by one `runcmd` call: the fresh temporary file
names handed out by `tempfile.NamedTemporaryFile`, the result of `p.wait(5)`,
the spawned process id, the decoded content of the two pipes, and a read-only
file system for `_readlog`.  Byte strings are modelled as already-decoded
`String`s.
-/

namespace VirtNbdBackup

/-- Python exception taxonomy relevant to the module.
`processError` is `libvirtnbdbackup.qemuhelper.exceptions.ProcessError`;
`valueError` is the builtin `ValueError` raised by `int(...)` and carries the
offending literal; `jsonDecodeError` is `json.JSONDecodeError` and carries the
undecodable document; `calledProcessError` is `subprocess.CalledProcessError`
raised by `subprocess.run(check=True)`; `timeoutExpired` is
`subprocess.TimeoutExpired` from `p.wait(5)`; `indexError` is the builtin
`IndexError` from `cmdLine[0]` on an empty vector. -/
inductive PyError where
  | processError (msg : String)
  | valueError (literal : String)
  | jsonDecodeError (doc : String)
  | calledProcessError (returncode : Int) (cmd : String) (stderrData : String)
  | timeoutExpired
  | indexError
  deriving Repr, DecidableEq

/-- The `processInfo` dataclass: `processInfo(pid, logFile, err, out)`.
`logFile` is `None` in pipe-capture mode, `err`/`out` are `None` in
file-capture mode.  `pid` may come from `int(...)` on a pid-file, hence `Int`. -/
structure processInfo where
  pid : Int
  logFile : Option String
  err : Option String
  out : Option String
  deriving Repr, DecidableEq

/-- Outcome of the operating-system interactions of one `runcmd` call.
`tmpLogName` is the name `tempfile.NamedTemporaryFile(prefix=cmdLine[0],
suffix=".log").name` would return; `tmpPidName` the name
`tempfile.NamedTemporaryFile(prefix="nbdkit", suffix=".pid").name` would
return; `waitResult` is `some returncode` when `p.wait(5)` sees the child
exit within the bound and `none` when the wait times out; `spawnedPid` is
`p.pid`; `stdoutData`/`stderrData` are the decoded pipe contents; `fs` maps a
path to the decoded content of a readable file (`none` when opening/reading
raises), and `osErr` is the text of the exception raised for an unreadable
path. -/
structure Env where
  tmpLogName : String
  tmpPidName : String
  waitResult : Option Int
  spawnedPid : Nat
  stdoutData : String
  stderrData : String
  fs : String → Option String
  osErr : String

/-- Python `str.strip()`: remove whitespace from both ends of the string.
(Python strips all Unicode whitespace; the model strips the ASCII whitespace
characters recognised by `Char.isWhitespace`, which covers everything the
helpers emit.) -/
def pyStrip (s : String) : String :=
  ⟨((s.data.dropWhile Char.isWhitespace).reverse.dropWhile Char.isWhitespace).reverse⟩

/-- Python `int(s)`: surrounding whitespace is stripped, then an optional
sign followed by a non-empty digit string.  (Underscore digit grouping,
accepted by CPython, is not modelled; no claim depends on it.) -/
def pyInt (s : String) : Option Int :=
  let t := pyStrip s
  match t.data with
  | [] => none
  | c :: rest =>
    if c = '-' then
      if rest ≠ [] ∧ rest.all Char.isDigit then
        some (-(Int.ofNat (Nat.ofDigits 10 ((rest.map fun d => d.toNat - 48)).reverse)))
      else none
    else if c = '+' then
      if rest ≠ [] ∧ rest.all Char.isDigit then
        some (Int.ofNat (Nat.ofDigits 10 ((rest.map fun d => d.toNat - 48)).reverse))
      else none
    else
      if (c :: rest).all Char.isDigit then
        some (Int.ofNat (Nat.ofDigits 10 (((c :: rest).map fun d => d.toNat - 48)).reverse))
      else none

/-- Keyword arguments of a `subprocess.run` call, as far as the module uses
them: `shell`, `check` and the (never passed, hence `None`) `timeout`. -/
structure RunKwargs where
  shell : Bool
  check : Bool
  timeout : Option Nat
  deriving Repr, DecidableEq

/-- The keyword arguments `qemuHelper.map` passes to `subprocess.run`:
`shell=True, check=True` and no `timeout` at all. -/
def mapRunKwargs : RunKwargs := ⟨true, true, none⟩

/-- Outcome of the shell process started by `subprocess.run` inside
`qemuHelper.map`.  `run` is called without `timeout`, so it blocks until the
process exits and the outcome always carries a return code. -/
structure ShellOutcome where
  returncode : Int
  stdoutData : String
  stderrData : String

/-- `subprocess.run(cmd, shell=True, check=True, stdout=PIPE, stderr=PIPE)`:
with `check=True` a non-zero exit raises `CalledProcessError`; otherwise the
captured stdout is available. -/
def runShell (cmd : String) (o : ShellOutcome) : Except PyError String :=
  if o.returncode ≠ 0 then .error (.calledProcessError o.returncode cmd o.stderrData)
  else .ok o.stdoutData

namespace qemuHelper

/-- `qemuHelper._readlog(logFile, cmd)`: read the file, decode, strip; on any
read error raise `ProcessError` with a message naming `cmd` and the
underlying error text. -/
def readlog (env : Env) (logFile : String) (cmd : String) : Except PyError String :=
  match env.fs logFile with
  | some content => .ok (pyStrip content)
  | none =>
      .error (.processError
        ("Error executing [" ++ cmd ++ ("] Unable to get error message: " ++ env.osErr)))

/-- `qemuHelper._readpipe(p)`: `(p.stdout.read().decode().strip(),
p.stderr.read().decode().strip())`. -/
def readpipe (env : Env) : String × String :=
  (pyStrip env.stdoutData, pyStrip env.stderrData)

/-- `qemuHelper.runcmd(cmdLine, pidFile=None, toPipe=False)`.
Mirrors the source control flow: choose capture target, spawn, `p.wait(5)`
(a timeout raises `TimeoutExpired`), classify on `p.returncode`; on non-zero
exit recover diagnostics from the pipes or the log file and raise
`ProcessError`; on zero exit optionally drain the pipes, resolve the real pid
through the pid-file when one was requested, and build the `processInfo`. -/
def runcmd (env : Env) (cmdLine : List String) (pidFile : Option String) (toPipe : Bool) :
    Except PyError processInfo :=
  match cmdLine with
  | [] => .error .indexError
  | prog :: _ =>
    let logFileName : Option String := if toPipe then none else some env.tmpLogName
    match env.waitResult with
    | none => .error .timeoutExpired
    | some rc =>
      if rc ≠ 0 then
        -- second p.wait(5) on the failure path: the child has already exited,
        -- so the re-wait returns the same code and is modelled as a no-op
        if toPipe then
          .error (.processError
            ("Unable to start [" ++ prog ++ ("] error: [" ++ (readpipe env).2 ++ "]")))
        else
          match readlog env env.tmpLogName prog with
          | .error e => .error e
          | .ok diag =>
              .error (.processError
                ("Unable to start [" ++ prog ++ ("] error: [" ++ diag ++ "]")))
      else
        let outv : Option String := if toPipe then some (readpipe env).1 else none
        let errv : Option String := if toPipe then some (readpipe env).2 else none
        match pidFile with
        | none => .ok ⟨(env.spawnedPid : Int), logFileName, errv, outv⟩
        | some pf =>
          match readlog env pf "" with
          | .error e => .error e
          | .ok content =>
            match pyInt content with
            | none => .error (.valueError content)
            | some n => .ok ⟨n, logFileName, errv, outv⟩

/-- The single-quote character interpolated around the URI by
`qemuHelper.map`: `f"'{cType.uri}'"`. -/
def squote : String := String.singleton (Char.ofNat 39)

/-- The shell command string built by `qemuHelper.map`:
`f"nbdinfo --json {metaOpt} " f"'{cType.uri}'"` where `metaOpt` is `--map`
when `cType.metaContext is None` and `--map=<context>` otherwise. -/
def mapCmd (metaContext : Option String) (uri : String) : String :=
  let metaOpt : String :=
    match metaContext with
    | none => "--map"
    | some c => "--map=" ++ c
  "nbdinfo --json " ++ metaOpt ++ (" " ++ (squote ++ uri ++ squote))

/-- `qemuHelper.map(cType)`: build the `nbdinfo` shell command, run it through
the shell, and return `json.loads(extentMap.stdout)`.  `json.loads` is
standard-library code outside this repository; it is modelled as an arbitrary
parse function `loads` returning `some` parsed structure on valid JSON and
`none` (raising `json.JSONDecodeError`) otherwise.  The theorem statements
quantify over `loads`, so nothing about the parser itself is assumed. -/
def map {α : Type} (loads : String → Option α) (metaContext : Option String)
    (uri : String) (o : ShellOutcome) : Except PyError α :=
  match runShell (mapCmd metaContext uri) o with
  | .error e => .error e
  | .ok stdoutData =>
    match loads stdoutData with
    | some j => .ok j
    | none => .error (.jsonDecodeError stdoutData)

/-- Argument vector built by `qemuHelper.create(targetFile, fileSize,
diskFormat)`. -/
def createCmd (targetFile fileSize diskFormat : String) : List String :=
  ["qemu-img", "create", "-f", diskFormat, targetFile, fileSize]

/-- Argument vector built by `qemuHelper.startRestoreNbdServer(targetFile,
socketFile)` (`self.exportName` is passed explicitly here). -/
def startRestoreNbdServerCmd (exportName targetFile socketFile : String) : List String :=
  ["qemu-nbd", "--discard=unmap", "--format=qcow2", "-x", exportName,
   targetFile, "-k", socketFile, "--fork"]

/-- Argument vector built by `qemuHelper.startNbdkitProcess(args,
nbdkitModule, blockMap, fullImage)`.  `pidFile` is the fresh name returned by
`tempfile.NamedTemporaryFile(delete=False, prefix="nbdkit", suffix=".pid")`
inside the builder; it is an explicit parameter here because it is chosen by
the operating system, not by the caller.  Numeric `args` fields arrive
f-string formatted, hence `String`. -/
def startNbdkitProcessCmd (pidFile : String) (verbose : Bool)
    (listenAddress listenPort exportName nbdkitModule blocksize blockMap fullImage threads :
      String) : List String :=
  let debug : String := if verbose then "1" else "0"
  ["nbdkit", "--pidfile", pidFile, "-i", listenAddress, "-p", listenPort,
   "-e", exportName, "--filter=blocksize", "--filter=cow", "-v", "python",
   nbdkitModule, "maxlen=" ++ blocksize, "blockmap=" ++ blockMap,
   "disk=" ++ fullImage, "debug=" ++ debug, "-t", threads]

/-- Argument vector built by `qemuHelper.startBackupNbdServer(diskFormat,
diskFile, socketFile, bitMap)`: `bitmapOpt` is the literal `--` when
`bitMap is None` and `--bitmap=<name>` otherwise; the pid-file is
`f"{socketFile}.pid"`. -/
def startBackupNbdServerCmd (exportName diskFormat diskFile socketFile : String)
    (bitMap : Option String) : List String :=
  let bitmapOpt : String :=
    match bitMap with
    | none => "--"
    | some b => "--bitmap=" ++ b
  let pidFile : String := socketFile ++ ".pid"
  ["qemu-nbd", "-r", "--format=" ++ diskFormat, "-x", exportName, diskFile,
   "-k", socketFile, "-t", "-e 2", "--fork", "--detect-zeroes=on",
   "--pid-file=" ++ pidFile, bitmapOpt]

/-- Argument vector built by `qemuHelper.disconnect(device)`. -/
def disconnectCmd (device : String) : List String :=
  ["qemu-nbd", "-d", device]

/-- `qemuHelper.create`: builds the vector and calls
`self.runcmd(cmd)` — `pidFile=None`, `toPipe=False`. -/
def create (env : Env) (targetFile fileSize diskFormat : String) :
    Except PyError processInfo :=
  runcmd env (createCmd targetFile fileSize diskFormat) none false

/-- `qemuHelper.startRestoreNbdServer`: builds the vector and calls
`self.runcmd(cmd)` — `pidFile=None`, `toPipe=False`. -/
def startRestoreNbdServer (env : Env) (exportName targetFile socketFile : String) :
    Except PyError processInfo :=
  runcmd env (startRestoreNbdServerCmd exportName targetFile socketFile) none false

/-- `qemuHelper.startNbdkitProcess`: allocates the temporary pid-file (the
name the environment hands out), builds the vector and calls
`self.runcmd(cmd, pidFile=pidFile)` — `toPipe=False`. -/
def startNbdkitProcess (env : Env) (verbose : Bool)
    (listenAddress listenPort exportName nbdkitModule blocksize blockMap fullImage threads :
      String) : Except PyError processInfo :=
  runcmd env
    (startNbdkitProcessCmd env.tmpPidName verbose listenAddress listenPort exportName
      nbdkitModule blocksize blockMap fullImage threads)
    (some env.tmpPidName) false

/-- `qemuHelper.startBackupNbdServer`: builds the vector and calls
`self.runcmd(cmd, pidFile=pidFile)` with `pidFile = f"{socketFile}.pid"` —
`toPipe=False`. -/
def startBackupNbdServer (env : Env) (exportName diskFormat diskFile socketFile : String)
    (bitMap : Option String) : Except PyError processInfo :=
  runcmd env (startBackupNbdServerCmd exportName diskFormat diskFile socketFile bitMap)
    (some (socketFile ++ ".pid")) false

/-- `qemuHelper.disconnect`: builds the vector and calls `self.runcmd(cmd)` —
`pidFile=None`, `toPipe=False`. -/
def disconnect (env : Env) (device : String) : Except PyError processInfo :=
  runcmd env (disconnectCmd device) none false

end qemuHelper

/-- `True` exactly when the call result is a raised `ProcessError`. -/
def isProcessFailure {α : Type} : Except PyError α → Bool
  | .error (.processError _) => true
  | _ => false

/-- `True` exactly when the call result is a returned value. -/
def isHandle {α : Type} : Except PyError α → Bool
  | .ok _ => true
  | _ => false

/-- `s` occurs as a contiguous substring of `msg`. -/
def containsSub (msg s : String) : Prop := ∃ a b, msg = a ++ s ++ b

/-- A token carries the differential-bitmap flag: it starts with the
characters `--bitmap=`. -/
def hasBitmapFlag (t : String) : Bool := "--bitmap=".data.isPrefixOf t.data

/-- A launch result is in file-capture shape for `env`: any returned handle
has the temporary log-file path set and both captured-output fields absent. -/
def fileModeOnly (env : Env) (r : Except PyError processInfo) : Prop :=
  ∀ h, r = .ok h → h.logFile = some env.tmpLogName ∧ h.err = none ∧ h.out = none

/-- The argument vector one call of `qemuHelper.startNbdkitProcess` actually
hands to `runcmd`: the pid-file token is the fresh name drawn from the
operating system's temporary-name generator inside the builder
(`tempfile.NamedTemporaryFile(delete=False, prefix="nbdkit",
suffix=".pid").name`), not a caller-chosen input. -/
def qemuHelper.startNbdkitProcessCmdOf (env : Env) (verbose : Bool)
    (listenAddress listenPort exportName nbdkitModule blocksize blockMap fullImage threads :
      String) : List String :=
  qemuHelper.startNbdkitProcessCmd env.tmpPidName verbose listenAddress listenPort exportName
    nbdkitModule blocksize blockMap fullImage threads

/-- Launch outcome: child exits 1 within the wait bound having written
nothing to stderr (pipe capture); no file is readable. -/
def envPipeEmptyErr : Env :=
  ⟨"t.log", "t.pid", some 1, 100, "some output", "", fun _ => none, "oserr"⟩

/-- Launch outcome: child exits 1 within the wait bound with whitespace-padded
stderr text (pipe capture). -/
def envPipeErrText : Env :=
  ⟨"t.log", "t.pid", some 1, 9, "OUT", " E ", fun _ => none, "boom"⟩

/-- Launch outcome: child exits 0 and the backgrounded helper wrote `-5`
into the pid-file `p.pid`. -/
def envPidFileNeg : Env :=
  ⟨"t.log", "t.pid", some 0, 77, "", "", fun s => if s = "p.pid" then some "-5" else none, "e"⟩

/-- Launch outcome: child exits 0 and the pid-file `p.pid` holds the
non-numeric text `abc`. -/
def envPidFileText : Env :=
  ⟨"t.log", "t.pid", some 0, 1, "", "", fun s => if s = "p.pid" then some "abc" else none, "e"⟩

/-- Launch outcome: child exits 0; `bad.pid` holds non-numeric text `zz` and
`miss.pid` does not exist. -/
def envPidFileMixed : Env :=
  ⟨"l3", "p3", some 0, 5, "", "", fun s => if s = "bad.pid" then some "zz" else none, "os3"⟩

/-- Launch outcome: child exits 0; the pid-file `p.pid` holds ` 42` followed
by a newline, the spawned process itself had pid 7. -/
def envPidFileFortyTwo : Env :=
  ⟨"l4", "p4", some 0, 7, "", "",
   fun s => if s = "p.pid" then some (" 42" ++ String.singleton (Char.ofNat 10)) else none, "e"⟩

/-- Launch outcome: child exits 0, file-capture mode, spawned pid 11. -/
def envFileOk : Env := ⟨"log1", "pid1", some 0, 11, "SO", "SE", fun _ => none, "e"⟩

/-- Launch outcome: child exits 0, file-capture mode, spawned pid 3. -/
def envFileOk3 : Env := ⟨"log8", "pid8", some 0, 3, "", "", fun _ => none, "e"⟩

/-- Launch outcome: child exits 2 having written `A` to stdout and `E` to
stderr. -/
def envStdoutA : Env := ⟨"tl", "tp", some 2, 8, "A", "E", fun _ => none, "o"⟩

/-- Launch outcome identical to `envStdoutA` except that the child wrote `B`
to stdout. -/
def envStdoutB : Env := ⟨"tl", "tp", some 2, 8, "B", "E", fun _ => none, "o"⟩

/-- One operating-system state for a `startNbdkitProcess` call: the
temp-name generator hands out `nbdkit_aa.pid`. -/
def envNbdkitFirst : Env := ⟨"n.log", "nbdkit_aa.pid", some 0, 21, "", "", fun _ => none, "e"⟩

/-- A second operating-system state, identical except that the temp-name
generator hands out `nbdkit_bb.pid`. -/
def envNbdkitSecond : Env := ⟨"n.log", "nbdkit_bb.pid", some 0, 21, "", "", fun _ => none, "e"⟩

/-- A concrete stand-in for `json.loads` used to instantiate the `map`
theorems: decodes the document `[]` (to `0`) and nothing else. -/
def loadsEmptyList : String → Option Nat := fun s => if s = "[]" then some 0 else none

/-- Shell outcome: `nbdinfo` exits 0 printing the JSON document `[]`. -/
def shellOkEmptyList : ShellOutcome := ⟨0, "[]", ""⟩

/-- Shell outcome: `nbdinfo` exits 0 printing a non-JSON banner. -/
def shellOkGarbage : ShellOutcome := ⟨0, "not json", ""⟩

/-- Shell outcome: `nbdinfo` exits 1 printing an error on stderr. -/
def shellFail : ShellOutcome := ⟨1, "", "server not found"⟩

theorem str_data_append (a b : String) : (a ++ b).data = a.data ++ b.data := by
  cases a; cases b; rfl

theorem str_append_assoc (a b c : String) : a ++ b ++ c = a ++ (b ++ c) := by
  cases a; cases b; cases c
  exact congrArg String.mk (List.append_assoc _ _ _)

theorem hbf_format (d : String) : hasBitmapFlag ("--format=" ++ d) = false := by
  cases d with | mk l => rfl

theorem hbf_pidfile (d : String) : hasBitmapFlag ("--pid-file=" ++ d) = false := by
  cases d with | mk l => rfl

theorem hbf_bitmap (b : String) : hasBitmapFlag ("--bitmap=" ++ b) = true := by
  cases b with | mk l => simp [hasBitmapFlag, str_data_append]

theorem append_ne_empty_left (a b : String) (h : a ≠ "") : a ++ b ≠ "" := by
  cases a with | mk la =>
  cases b with | mk lb =>
  intro hc
  apply h
  have h2 : la ++ lb = [] := congrArg String.data hc
  have h3 : la = [] := (List.append_eq_nil.mp h2).1
  simp [h3]

namespace qemuHelper

theorem runcmd_nonzero_pipe (env : Env) (prog : String) (rest : List String)
    (pidFile : Option String) (rc : Int) (hw : env.waitResult = some rc) (hrc : rc ≠ 0) :
    runcmd env (prog :: rest) pidFile true =
      .error (.processError
        ("Unable to start [" ++ prog ++ ("] error: [" ++ pyStrip env.stderrData ++ "]"))) := by
  simp [runcmd, hw, hrc, readpipe]

theorem runcmd_nonzero_file_readable (env : Env) (prog : String) (rest : List String)
    (pidFile : Option String) (rc : Int) (content : String)
    (hw : env.waitResult = some rc) (hrc : rc ≠ 0)
    (hfs : env.fs env.tmpLogName = some content) :
    runcmd env (prog :: rest) pidFile false =
      .error (.processError
        ("Unable to start [" ++ prog ++ ("] error: [" ++ pyStrip content ++ "]"))) := by
  simp [runcmd, hw, hrc, readlog, hfs]

theorem runcmd_nonzero_file_unreadable (env : Env) (prog : String) (rest : List String)
    (pidFile : Option String) (rc : Int)
    (hw : env.waitResult = some rc) (hrc : rc ≠ 0)
    (hfs : env.fs env.tmpLogName = none) :
    runcmd env (prog :: rest) pidFile false =
      .error (.processError
        ("Error executing [" ++ prog ++ ("] Unable to get error message: " ++ env.osErr))) := by
  simp [runcmd, hw, hrc, readlog, hfs]

theorem runcmd_zero_nopid (env : Env) (prog : String) (rest : List String) (toPipe : Bool)
    (hw : env.waitResult = some 0) :
    runcmd env (prog :: rest) none toPipe =
      .ok ⟨(env.spawnedPid : Int),
           if toPipe then none else some env.tmpLogName,
           if toPipe then some (pyStrip env.stderrData) else none,
           if toPipe then some (pyStrip env.stdoutData) else none⟩ := by
  simp [runcmd, hw, readpipe]

theorem runcmd_zero_pid_parsed (env : Env) (prog : String) (rest : List String) (toPipe : Bool)
    (pf content : String) (n : Int) (hw : env.waitResult = some 0)
    (hfs : env.fs pf = some content) (hp : pyInt (pyStrip content) = some n) :
    runcmd env (prog :: rest) (some pf) toPipe =
      .ok ⟨n,
           if toPipe then none else some env.tmpLogName,
           if toPipe then some (pyStrip env.stderrData) else none,
           if toPipe then some (pyStrip env.stdoutData) else none⟩ := by
  simp [runcmd, hw, readpipe, readlog, hfs, hp]

theorem runcmd_zero_pid_unparsable (env : Env) (prog : String) (rest : List String)
    (toPipe : Bool) (pf content : String) (hw : env.waitResult = some 0)
    (hfs : env.fs pf = some content) (hp : pyInt (pyStrip content) = none) :
    runcmd env (prog :: rest) (some pf) toPipe = .error (.valueError (pyStrip content)) := by
  simp [runcmd, hw, readlog, hfs, hp]

theorem runcmd_zero_pid_unreadable (env : Env) (prog : String) (rest : List String)
    (toPipe : Bool) (pf : String) (hw : env.waitResult = some 0)
    (hfs : env.fs pf = none) :
    runcmd env (prog :: rest) (some pf) toPipe =
      .error (.processError
        ("Error executing [" ++ "" ++ ("] Unable to get error message: " ++ env.osErr))) := by
  simp [runcmd, hw, readlog, hfs]

/-- Inversion: everything a returned handle satisfies. -/
theorem runcmd_ok_shape (env : Env) (cmdLine : List String) (pidFile : Option String)
    (toPipe : Bool) (h : processInfo)
    (hr : runcmd env cmdLine pidFile toPipe = .ok h) :
    env.waitResult = some 0 ∧
    h.logFile = (if toPipe then none else some env.tmpLogName) ∧
    h.err = (if toPipe then some (pyStrip env.stderrData) else none) ∧
    h.out = (if toPipe then some (pyStrip env.stdoutData) else none) ∧
    (pidFile = none → h.pid = (env.spawnedPid : Int)) ∧
    (∀ pf, pidFile = some pf →
      ∃ content, env.fs pf = some content ∧ pyInt (pyStrip content) = some h.pid) := by
  match cmdLine with
  | [] => simp [runcmd] at hr
  | prog :: rest =>
    match hw : env.waitResult with
    | none => simp [runcmd, hw] at hr
    | some rc =>
      by_cases hrc : rc = 0
      · subst hrc
        refine ⟨rfl, ?_⟩
        match pidFile with
        | none =>
          rw [runcmd_zero_nopid env prog rest toPipe hw] at hr
          have := Except.ok.inj hr
          subst this
          simp
        | some pf =>
          match hfs : env.fs pf with
          | none =>
            rw [runcmd_zero_pid_unreadable env prog rest toPipe pf hw hfs] at hr
            simp at hr
          | some content =>
            match hp : pyInt (pyStrip content) with
            | none =>
              rw [runcmd_zero_pid_unparsable env prog rest toPipe pf content hw hfs hp] at hr
              simp at hr
            | some n =>
              rw [runcmd_zero_pid_parsed env prog rest toPipe pf content n hw hfs hp] at hr
              have := Except.ok.inj hr
              subst this
              refine ⟨rfl, rfl, rfl, by simp, ?_⟩
              intro pf2 hpf2
              obtain rfl : pf = pf2 := by injection hpf2
              exact ⟨content, hfs, hp⟩
      · match toPipe with
        | true =>
          rw [runcmd_nonzero_pipe env prog rest pidFile rc hw hrc] at hr
          simp at hr
        | false =>
          match hfs : env.fs env.tmpLogName with
          | some content =>
            rw [runcmd_nonzero_file_readable env prog rest pidFile rc content hw hrc hfs] at hr
            simp at hr
          | none =>
            rw [runcmd_nonzero_file_unreadable env prog rest pidFile rc hw hrc hfs] at hr
            simp at hr

end qemuHelper

/-- C1 (amended): for every launch through `runcmd`, in both capture modes,
if the spawned process exits non-zero then the call raises `ProcessError`
whose message contains the program name (the first element of the argument
vector) and embeds the recovered diagnostic text — the stripped pipe stderr
in pipe-capture mode, the stripped log-file content in file-capture mode
(either may be empty), or the secondary read-error text when even the log
could not be read — and no handle is returned.  Each branch states the exact
raised message together with containment of the program name and of the
recovered diagnostic. -/
theorem C1_nonzero_exit_raises (env : Env) (prog : String) (rest : List String)
    (pidFile : Option String) (toPipe : Bool) (rc : Int)
    (hw : env.waitResult = some rc) (hrc : rc ≠ 0) :
    isHandle (qemuHelper.runcmd env (prog :: rest) pidFile toPipe) = false ∧
    (toPipe = true →
      ∃ msg, qemuHelper.runcmd env (prog :: rest) pidFile toPipe =
          .error (.processError msg) ∧
        msg = "Unable to start [" ++ prog ++
          ("] error: [" ++ pyStrip env.stderrData ++ "]") ∧
        containsSub msg prog ∧ containsSub msg (pyStrip env.stderrData)) ∧
    (toPipe = false → ∀ content, env.fs env.tmpLogName = some content →
      ∃ msg, qemuHelper.runcmd env (prog :: rest) pidFile toPipe =
          .error (.processError msg) ∧
        msg = "Unable to start [" ++ prog ++ ("] error: [" ++ pyStrip content ++ "]") ∧
        containsSub msg prog ∧ containsSub msg (pyStrip content)) ∧
    (toPipe = false → env.fs env.tmpLogName = none →
      ∃ msg, qemuHelper.runcmd env (prog :: rest) pidFile toPipe =
          .error (.processError msg) ∧
        msg = "Error executing [" ++ prog ++
          ("] Unable to get error message: " ++ env.osErr) ∧
        containsSub msg prog ∧ containsSub msg env.osErr) := by
  refine ⟨?_, ?_, ?_, ?_⟩
  · match toPipe with
    | true =>
      rw [qemuHelper.runcmd_nonzero_pipe env prog rest pidFile rc hw hrc]; rfl
    | false =>
      match hfs : env.fs env.tmpLogName with
      | some content =>
        rw [qemuHelper.runcmd_nonzero_file_readable env prog rest pidFile rc content
          hw hrc hfs]
        rfl
      | none =>
        rw [qemuHelper.runcmd_nonzero_file_unreadable env prog rest pidFile rc hw hrc hfs]
        rfl
  · rintro rfl
    refine ⟨_, qemuHelper.runcmd_nonzero_pipe env prog rest pidFile rc hw hrc, rfl,
      ⟨"Unable to start [", "] error: [" ++ pyStrip env.stderrData ++ "]", rfl⟩,
      ⟨"Unable to start [" ++ prog ++ "] error: [", "]", ?_⟩⟩
    simp [str_append_assoc]
  · rintro rfl content hfs
    refine ⟨_, qemuHelper.runcmd_nonzero_file_readable env prog rest pidFile rc content
        hw hrc hfs, rfl,
      ⟨"Unable to start [", "] error: [" ++ pyStrip content ++ "]", rfl⟩,
      ⟨"Unable to start [" ++ prog ++ "] error: [", "]", ?_⟩⟩
    simp [str_append_assoc]
  · rintro rfl hfs
    refine ⟨_, qemuHelper.runcmd_nonzero_file_unreadable env prog rest pidFile rc hw hrc hfs,
      rfl,
      ⟨"Error executing [", "] Unable to get error message: " ++ env.osErr, rfl⟩,
      ⟨"Error executing [" ++ prog ++ "] Unable to get error message: ", "", ?_⟩⟩
    simp [str_append_assoc]

/-- C1 witness: concrete failing launch (exit code 1, pipe capture) raising
`ProcessError` whose message is exactly the launch-failure text embedding the
program name and the stripped stderr diagnostic; no handle is returned. -/
theorem C1_witness :
    (envPipeErrText.waitResult = some 1 ∧ (1 : Int) ≠ 0) ∧
    (∃ msg, qemuHelper.runcmd envPipeErrText ["qemu-img", "create"] none true =
        .error (.processError msg) ∧
      msg = "Unable to start [" ++ "qemu-img" ++
        ("] error: [" ++ pyStrip envPipeErrText.stderrData ++ "]") ∧
      containsSub msg "qemu-img" ∧ containsSub msg (pyStrip envPipeErrText.stderrData)) ∧
    isHandle (qemuHelper.runcmd envPipeErrText ["qemu-img", "create"] none true) = false :=
  ⟨⟨rfl, by decide⟩,
   (C1_nonzero_exit_raises envPipeErrText "qemu-img" ["create"] none true 1 rfl
     (by decide)).2.1 rfl,
   (C1_nonzero_exit_raises envPipeErrText "qemu-img" ["create"] none true 1 rfl
     (by decide)).1⟩

/-- C1 counterexample: a process that exits 1 having written nothing to
stderr.  The recovered diagnostic text — `_readpipe`'s stripped stderr — is
the empty string, and the raised message embeds that empty text
(`... error: []`), refuting the claim that the message always contains
NON-EMPTY recovered diagnostic text. -/
theorem C1_counterexample :
    (qemuHelper.readpipe envPipeEmptyErr).2 = "" ∧
    qemuHelper.runcmd envPipeEmptyErr ["qemu-nbd", "-d", "/dev/nbd0"] none true =
      .error (.processError "Unable to start [qemu-nbd] error: []") :=
  ⟨rfl, rfl⟩

/-- C2 (amended): a launch whose process exits 0 yields a handle whose
log-file path is set exactly in file-capture mode and whose captured
stdout/stderr fields are set exactly in pipe-capture mode; the pid is the
(non-negative) spawned pid when no pid-file was supplied, and otherwise the
integer parsed from the (stripped) pid-file content — which the code does
NOT constrain to be non-negative. -/
theorem C2_success_handle_shape (env : Env) (cmdLine : List String)
    (pidFile : Option String) (toPipe : Bool) (h : processInfo)
    (hr : qemuHelper.runcmd env cmdLine pidFile toPipe = .ok h) :
    h.logFile = (if toPipe then none else some env.tmpLogName) ∧
    h.err = (if toPipe then some (pyStrip env.stderrData) else none) ∧
    h.out = (if toPipe then some (pyStrip env.stdoutData) else none) ∧
    (pidFile = none → h.pid = (env.spawnedPid : Int) ∧ 0 ≤ h.pid) ∧
    (∀ pf, pidFile = some pf →
      ∃ content, env.fs pf = some content ∧ pyInt (pyStrip content) = some h.pid) := by
  obtain ⟨-, hl, he, ho, hn, hp⟩ := qemuHelper.runcmd_ok_shape env cmdLine pidFile toPipe h hr
  refine ⟨hl, he, ho, fun hpn => ⟨hn hpn, ?_⟩, hp⟩
  rw [hn hpn]
  exact Int.ofNat_nonneg env.spawnedPid

/-- C2 witness: a concrete successful file-capture launch without a pid-file
(handle has the log path set, the captured fields absent and the
non-negative spawned pid 11), and one with the pid-file `p.pid` holding
` 42\n` (the handle's pid 42 is the integer parsed from the pid-file). -/
theorem C2_witness :
    (qemuHelper.runcmd envFileOk ["x"] none false = .ok ⟨11, some "log1", none, none⟩ ∧
      qemuHelper.runcmd envPidFileFortyTwo ["x"] (some "p.pid") false =
        .ok ⟨42, some "l4", none, none⟩) ∧
    ((⟨11, some "log1", none, none⟩ : processInfo).logFile =
        (if false then none else some envFileOk.tmpLogName) ∧
      (⟨11, some "log1", none, none⟩ : processInfo).err =
        (if false then some (pyStrip envFileOk.stderrData) else none) ∧
      (⟨11, some "log1", none, none⟩ : processInfo).out =
        (if false then some (pyStrip envFileOk.stdoutData) else none) ∧
      ((none : Option String) = none →
        (⟨11, some "log1", none, none⟩ : processInfo).pid = (envFileOk.spawnedPid : Int) ∧
        0 ≤ (⟨11, some "log1", none, none⟩ : processInfo).pid) ∧
      (∀ pf, (none : Option String) = some pf →
        ∃ content, envFileOk.fs pf = some content ∧
          pyInt (pyStrip content) = some (⟨11, some "log1", none, none⟩ : processInfo).pid)) ∧
    (∃ content, envPidFileFortyTwo.fs "p.pid" = some content ∧
      pyInt (pyStrip content) = some (⟨42, some "l4", none, none⟩ : processInfo).pid) :=
  ⟨⟨rfl, rfl⟩,
   C2_success_handle_shape envFileOk ["x"] none false ⟨11, some "log1", none, none⟩ rfl,
   (C2_success_handle_shape envPidFileFortyTwo ["x"] (some "p.pid") false
     ⟨42, some "l4", none, none⟩ rfl).2.2.2.2 "p.pid" rfl⟩

/-- C2 counterexample: the process exits 0 and the pid-file contains `-5`;
the launch returns a handle whose pid is the NEGATIVE integer `-5`, refuting
the claim that every handle returned on exit 0 has a non-negative pid. -/
theorem C2_counterexample :
    qemuHelper.runcmd envPidFileNeg ["qemu-nbd"] (some "p.pid") false =
      .ok ⟨-5, some "t.log", none, none⟩ ∧
    (⟨-5, some "t.log", none, none⟩ : processInfo).pid < 0 :=
  ⟨rfl, by decide⟩

/-- C3 (amended): with a pid-file path supplied and exit code 0, an ABSENT
pid-file raises `ProcessError` (the log-read failure kind, with the empty
string in the command slot), while a present but non-numeric pid-file raises
the builtin `ValueError` — a different error kind than `ProcessError`; in
both cases no handle is returned. -/
theorem C3_pidfile_read_and_parse_errors (env : Env) (prog : String) (rest : List String)
    (pf : String) (toPipe : Bool) (hw : env.waitResult = some 0) :
    (env.fs pf = none →
      qemuHelper.runcmd env (prog :: rest) (some pf) toPipe =
        .error (.processError
          ("Error executing [" ++ "" ++ ("] Unable to get error message: " ++ env.osErr))) ∧
      isHandle (qemuHelper.runcmd env (prog :: rest) (some pf) toPipe) = false) ∧
    (∀ content, env.fs pf = some content → pyInt (pyStrip content) = none →
      qemuHelper.runcmd env (prog :: rest) (some pf) toPipe =
        .error (.valueError (pyStrip content)) ∧
      isProcessFailure (qemuHelper.runcmd env (prog :: rest) (some pf) toPipe) = false ∧
      isHandle (qemuHelper.runcmd env (prog :: rest) (some pf) toPipe) = false) := by
  constructor
  · intro hfs
    rw [qemuHelper.runcmd_zero_pid_unreadable env prog rest toPipe pf hw hfs]
    exact ⟨rfl, rfl⟩
  · intro content hfs hp
    rw [qemuHelper.runcmd_zero_pid_unparsable env prog rest toPipe pf content hw hfs hp]
    exact ⟨rfl, rfl, rfl⟩

/-- C3 witness: with the same zero-exit environment, launching against the
missing pid-file `miss.pid` raises `ProcessError`, and against the
non-numeric pid-file `bad.pid` raises `ValueError`. -/
theorem C3_witness :
    (envPidFileMixed.waitResult = some 0 ∧ envPidFileMixed.fs "miss.pid" = none ∧
      envPidFileMixed.fs "bad.pid" = some "zz" ∧ pyInt (pyStrip "zz") = none) ∧
    qemuHelper.runcmd envPidFileMixed ["x"] (some "miss.pid") false =
      .error (.processError
        ("Error executing [" ++ "" ++
          ("] Unable to get error message: " ++ envPidFileMixed.osErr))) ∧
    qemuHelper.runcmd envPidFileMixed ["x"] (some "bad.pid") false =
      .error (.valueError (pyStrip "zz")) :=
  ⟨⟨rfl, rfl, rfl, rfl⟩,
   ((C3_pidfile_read_and_parse_errors envPidFileMixed "x" [] "miss.pid" false rfl).1 rfl).1,
   ((C3_pidfile_read_and_parse_errors envPidFileMixed "x" [] "bad.pid" false rfl).2
     "zz" rfl rfl).1⟩

/-- C3 counterexample: pid-file present with content `abc` and exit code 0:
the call raises `ValueError`, not `ProcessError` (and returns no handle),
refuting the claim that a non-numeric pid-file raises the same
process-failure kind as log-read failures. -/
theorem C3_counterexample :
    qemuHelper.runcmd envPidFileText ["x"] (some "p.pid") false =
      .error (.valueError "abc") ∧
    isProcessFailure (qemuHelper.runcmd envPidFileText ["x"] (some "p.pid") false) = false ∧
    isHandle (qemuHelper.runcmd envPidFileText ["x"] (some "p.pid") false) = false :=
  ⟨rfl, rfl, rfl⟩

/-- C4: on exit 0 with a pid-file containing a valid integer the returned
handle's pid is that integer (so it differs from the spawned process's
identifier whenever the two differ); with no pid-file the handle's pid is the
spawned process's own identifier. -/
theorem C4_pid_resolution (env : Env) (prog : String) (rest : List String) (toPipe : Bool)
    (hw : env.waitResult = some 0) :
    (∀ pf content n, env.fs pf = some content → pyInt (pyStrip content) = some n →
      ∃ h, qemuHelper.runcmd env (prog :: rest) (some pf) toPipe = .ok h ∧
        h.pid = n ∧ (n ≠ (env.spawnedPid : Int) → h.pid ≠ (env.spawnedPid : Int))) ∧
    (∃ h, qemuHelper.runcmd env (prog :: rest) none toPipe = .ok h ∧
      h.pid = (env.spawnedPid : Int)) := by
  constructor
  · intro pf content n hfs hp
    exact ⟨_, qemuHelper.runcmd_zero_pid_parsed env prog rest toPipe pf content n hw hfs hp,
      rfl, fun hne => hne⟩
  · exact ⟨_, qemuHelper.runcmd_zero_nopid env prog rest toPipe hw, rfl⟩

/-- C4 witness: the pid-file holds ` 42\n` while the spawned pid is 7; the
handle carries pid 42 with the pid-file and pid 7 without it. -/
theorem C4_witness :
    (envPidFileFortyTwo.waitResult = some 0 ∧
      pyInt (pyStrip (" 42" ++ String.singleton (Char.ofNat 10))) = some 42 ∧
      envPidFileFortyTwo.spawnedPid = 7) ∧
    (∃ h, qemuHelper.runcmd envPidFileFortyTwo ["x"] (some "p.pid") false = .ok h ∧
      h.pid = 42 ∧ ((42 : Int) ≠ (envPidFileFortyTwo.spawnedPid : Int) →
        h.pid ≠ (envPidFileFortyTwo.spawnedPid : Int))) ∧
    (∃ h, qemuHelper.runcmd envPidFileFortyTwo ["x"] none false = .ok h ∧
      h.pid = (envPidFileFortyTwo.spawnedPid : Int)) :=
  ⟨⟨rfl, rfl, rfl⟩,
   (C4_pid_resolution envPidFileFortyTwo "x" [] false rfl).1 "p.pid"
     (" 42" ++ String.singleton (Char.ofNat 10)) 42 rfl rfl,
   (C4_pid_resolution envPidFileFortyTwo "x" [] false rfl).2⟩

/-- C5 (amended): for inputs that are themselves non-empty and not
bitmap-flag shaped, the start-backup-server vector built with no bitmap name
contains no `--bitmap=`-flagged token and no empty token, but it does contain
the placeholder token `--` in the bitmap slot; with a bitmap name given,
exactly the single token `--bitmap=<name>` carries the flag. -/
theorem C5_bitmap_flag_handling (exportName diskFormat diskFile socketFile : String)
    (he : hasBitmapFlag exportName = false) (hd : hasBitmapFlag diskFile = false)
    (hs : hasBitmapFlag socketFile = false)
    (hne : exportName ≠ "") (hnd : diskFile ≠ "") (hns : socketFile ≠ "") :
    (∀ t ∈ qemuHelper.startBackupNbdServerCmd exportName diskFormat diskFile socketFile none,
      hasBitmapFlag t = false ∧ t ≠ "") ∧
    "--" ∈ qemuHelper.startBackupNbdServerCmd exportName diskFormat diskFile socketFile none ∧
    (∀ b, (qemuHelper.startBackupNbdServerCmd exportName diskFormat diskFile socketFile
        (some b)).filter (fun t => hasBitmapFlag t) = ["--bitmap=" ++ b]) := by
  refine ⟨?_, ?_, ?_⟩
  · intro t ht
    simp [qemuHelper.startBackupNbdServerCmd] at ht
    rcases ht with h | h | h | h | h | h | h | h | h | h | h | h | h | h <;> subst h
    · exact ⟨rfl, by decide⟩
    · exact ⟨rfl, by decide⟩
    · exact ⟨hbf_format diskFormat, append_ne_empty_left _ _ (by decide)⟩
    · exact ⟨rfl, by decide⟩
    · exact ⟨he, hne⟩
    · exact ⟨hd, hnd⟩
    · exact ⟨rfl, by decide⟩
    · exact ⟨hs, hns⟩
    · exact ⟨rfl, by decide⟩
    · exact ⟨rfl, by decide⟩
    · exact ⟨rfl, by decide⟩
    · exact ⟨rfl, by decide⟩
    · exact ⟨hbf_pidfile (socketFile ++ ".pid"), append_ne_empty_left _ _ (by decide)⟩
    · exact ⟨rfl, by decide⟩
  · simp [qemuHelper.startBackupNbdServerCmd]
  · intro b
    simp [qemuHelper.startBackupNbdServerCmd, List.filter, he, hd, hs, hbf_format,
      hbf_pidfile, hbf_bitmap, show hasBitmapFlag "qemu-nbd" = false from rfl,
      show hasBitmapFlag "-r" = false from rfl, show hasBitmapFlag "-x" = false from rfl,
      show hasBitmapFlag "-k" = false from rfl, show hasBitmapFlag "-t" = false from rfl,
      show hasBitmapFlag "-e 2" = false from rfl, show hasBitmapFlag "--fork" = false from rfl,
      show hasBitmapFlag "--detect-zeroes=on" = false from rfl]

/-- C5 witness: concrete backup-server vectors for export `sda`: without a
bitmap the placeholder `--` is present, and with bitmap `bm1` the flagged
tokens are exactly `--bitmap=bm1`. -/
theorem C5_witness :
    (hasBitmapFlag "sda" = false ∧ hasBitmapFlag "/tmp/disk" = false ∧
      hasBitmapFlag "/tmp/sock" = false ∧ "sda" ≠ "" ∧ "/tmp/disk" ≠ "" ∧ "/tmp/sock" ≠ "") ∧
    "--" ∈ qemuHelper.startBackupNbdServerCmd "sda" "qcow2" "/tmp/disk" "/tmp/sock" none ∧
    (qemuHelper.startBackupNbdServerCmd "sda" "qcow2" "/tmp/disk" "/tmp/sock"
      (some "bm1")).filter (fun t => hasBitmapFlag t) = ["--bitmap=" ++ "bm1"] :=
  ⟨⟨rfl, rfl, rfl, by decide, by decide, by decide⟩,
   (C5_bitmap_flag_handling "sda" "qcow2" "/tmp/disk" "/tmp/sock" rfl rfl rfl
     (by decide) (by decide) (by decide)).2.1,
   (C5_bitmap_flag_handling "sda" "qcow2" "/tmp/disk" "/tmp/sock" rfl rfl rfl
     (by decide) (by decide) (by decide)).2.2 "bm1"⟩

/-- C5 counterexample: with no bitmap given, the produced vector does not
omit the slot silently — it contains the placeholder token `--` (exactly
once, as its last element), refuting the claim that the vector contains no
placeholder tokens. -/
theorem C5_counterexample :
    "--" ∈ qemuHelper.startBackupNbdServerCmd "sda" "qcow2" "/tmp/disk" "/tmp/sock" none ∧
    (qemuHelper.startBackupNbdServerCmd "sda" "qcow2" "/tmp/disk" "/tmp/sock" none).count
      "--" = 1 ∧
    (qemuHelper.startBackupNbdServerCmd "sda" "qcow2" "/tmp/disk" "/tmp/sock"
      none).getLast? = some "--" := by
  decide

/-- C6: the map-extents builder requests `--map=<context>` when a
metadata-context name is supplied and the bare default `--map` otherwise;
when the tool exits 0, valid JSON output is returned exactly as parsed (no
field transformation) and invalid JSON output raises `json.JSONDecodeError`,
a different error kind than `ProcessError`. -/
theorem C6_map_json_passthrough {α : Type} (loads : String → Option α) (uri : String)
    (o : ShellOutcome) (ho : o.returncode = 0) :
    qemuHelper.mapCmd none uri =
      "nbdinfo --json " ++ "--map" ++
        (" " ++ (qemuHelper.squote ++ uri ++ qemuHelper.squote)) ∧
    (∀ c, qemuHelper.mapCmd (some c) uri =
      "nbdinfo --json " ++ ("--map=" ++ c) ++
        (" " ++ (qemuHelper.squote ++ uri ++ qemuHelper.squote))) ∧
    (∀ ctx j, loads o.stdoutData = some j → qemuHelper.map loads ctx uri o = .ok j) ∧
    (∀ ctx, loads o.stdoutData = none →
      qemuHelper.map loads ctx uri o = .error (.jsonDecodeError o.stdoutData)) ∧
    (∀ s m, PyError.jsonDecodeError s ≠ PyError.processError m) := by
  refine ⟨rfl, fun c => rfl, ?_, ?_, fun s m hc => PyError.noConfusion hc⟩
  · intro ctx j hj
    simp [qemuHelper.map, runShell, ho, hj]
  · intro ctx hj
    simp [qemuHelper.map, runShell, ho, hj]

/-- C6 witness: with a concrete parse function decoding only `[]`, a 0-exit
tool printing `[]` yields exactly the parsed structure, and one printing
`not json` raises the decode error carrying that document. -/
theorem C6_witness :
    (shellOkEmptyList.returncode = 0 ∧ shellOkGarbage.returncode = 0 ∧
      loadsEmptyList "[]" = some 0 ∧ loadsEmptyList "not json" = none) ∧
    qemuHelper.map loadsEmptyList none "nbd+unix:///sda" shellOkEmptyList = .ok 0 ∧
    qemuHelper.map loadsEmptyList (some "qemu:dirty-bitmap:b") "nbd+unix:///sda"
      shellOkGarbage = .error (.jsonDecodeError "not json") :=
  ⟨⟨rfl, rfl, rfl, rfl⟩,
   (C6_map_json_passthrough loadsEmptyList "nbd+unix:///sda" shellOkEmptyList rfl).2.2.1
     none 0 rfl,
   (C6_map_json_passthrough loadsEmptyList "nbd+unix:///sda" shellOkGarbage rfl).2.2.2.1
     (some "qemu:dirty-bitmap:b") rfl⟩

/-- C7 (amended): five of the six builders (create-image, restore-server,
backup-server, disconnect, map-extents) are pure total functions of their
caller inputs, fully determined by the closed-form vectors below; the
plugin-host builder is additionally a function of the fresh temporary
pid-file name it obtains from the operating system (an I/O effect), so its
output is NOT determined by its caller inputs alone — see the
counterexample. -/
theorem C7_builders_deterministic
    (targetFile fileSize diskFormat exportName socketFile device uri b c pidFile : String)
    (verbose : Bool)
    (listenAddress listenPort nbdkitModule blocksize blockMap fullImage threads : String) :
    qemuHelper.createCmd targetFile fileSize diskFormat =
      ["qemu-img", "create", "-f", diskFormat, targetFile, fileSize] ∧
    qemuHelper.startRestoreNbdServerCmd exportName targetFile socketFile =
      ["qemu-nbd", "--discard=unmap", "--format=qcow2", "-x", exportName, targetFile,
       "-k", socketFile, "--fork"] ∧
    qemuHelper.startBackupNbdServerCmd exportName diskFormat targetFile socketFile none =
      ["qemu-nbd", "-r", "--format=" ++ diskFormat, "-x", exportName, targetFile,
       "-k", socketFile, "-t", "-e 2", "--fork", "--detect-zeroes=on",
       "--pid-file=" ++ (socketFile ++ ".pid"), "--"] ∧
    qemuHelper.startBackupNbdServerCmd exportName diskFormat targetFile socketFile (some b) =
      ["qemu-nbd", "-r", "--format=" ++ diskFormat, "-x", exportName, targetFile,
       "-k", socketFile, "-t", "-e 2", "--fork", "--detect-zeroes=on",
       "--pid-file=" ++ (socketFile ++ ".pid"), "--bitmap=" ++ b] ∧
    qemuHelper.disconnectCmd device = ["qemu-nbd", "-d", device] ∧
    qemuHelper.mapCmd none uri =
      "nbdinfo --json " ++ "--map" ++
        (" " ++ (qemuHelper.squote ++ uri ++ qemuHelper.squote)) ∧
    qemuHelper.mapCmd (some c) uri =
      "nbdinfo --json " ++ ("--map=" ++ c) ++
        (" " ++ (qemuHelper.squote ++ uri ++ qemuHelper.squote)) ∧
    qemuHelper.startNbdkitProcessCmd pidFile verbose listenAddress listenPort exportName
        nbdkitModule blocksize blockMap fullImage threads =
      ["nbdkit", "--pidfile", pidFile, "-i", listenAddress, "-p", listenPort,
       "-e", exportName, "--filter=blocksize", "--filter=cow", "-v", "python",
       nbdkitModule, "maxlen=" ++ blocksize, "blockmap=" ++ blockMap,
       "disk=" ++ fullImage, "debug=" ++ (if verbose then "1" else "0"), "-t", threads] :=
  ⟨rfl, rfl, rfl, rfl, rfl, rfl, rfl, rfl⟩

/-- C7 counterexample: two `startNbdkitProcess` calls with identical caller
inputs under two operating-system states that differ only in the fresh
temporary pid-file name produce different argument vectors — the plugin-host
builder is not a deterministic pure function of its inputs and performs I/O
(temp-file allocation). -/
theorem C7_counterexample :
    envNbdkitFirst.spawnedPid = envNbdkitSecond.spawnedPid ∧
    envNbdkitFirst.tmpLogName = envNbdkitSecond.tmpLogName ∧
    envNbdkitFirst.tmpPidName ≠ envNbdkitSecond.tmpPidName ∧
    qemuHelper.startNbdkitProcessCmdOf envNbdkitFirst false "127.0.0.1" "10809" "sda"
        "m.py" "4096" "bm.json" "d.img" "2" ≠
      qemuHelper.startNbdkitProcessCmdOf envNbdkitSecond false "127.0.0.1" "10809" "sda"
        "m.py" "4096" "bm.json" "d.img" "2" :=
  ⟨rfl, rfl, by decide, by decide⟩

theorem qemuHelper.runcmd_file_capture (env : Env) (cmdLine : List String)
    (pidFile : Option String) :
    fileModeOnly env (qemuHelper.runcmd env cmdLine pidFile false) := by
  intro h hr
  obtain ⟨-, hl, he, ho, -, -⟩ := qemuHelper.runcmd_ok_shape env cmdLine pidFile false h hr
  exact ⟨hl, he, ho⟩

/-- C8: every public operation (`create`, `startRestoreNbdServer`,
`startBackupNbdServer`, `startNbdkitProcess`, `disconnect`) invokes `runcmd`
with file-capture mode (`toPipe` left at its `False` default), so every
handle returned through the public interface has the log-file path set and
both captured-output fields absent; pipe-capture is unreachable through
them. -/
theorem C8_public_ops_file_capture (env : Env)
    (targetFile fileSize diskFormat exportName socketFile device : String)
    (verbose : Bool)
    (listenAddress listenPort nbdkitModule blocksize blockMap fullImage threads : String)
    (bitMap : Option String) :
    (qemuHelper.create env targetFile fileSize diskFormat =
        qemuHelper.runcmd env (qemuHelper.createCmd targetFile fileSize diskFormat)
          none false ∧
      fileModeOnly env (qemuHelper.create env targetFile fileSize diskFormat)) ∧
    (qemuHelper.startRestoreNbdServer env exportName targetFile socketFile =
        qemuHelper.runcmd env
          (qemuHelper.startRestoreNbdServerCmd exportName targetFile socketFile) none false ∧
      fileModeOnly env (qemuHelper.startRestoreNbdServer env exportName targetFile socketFile)) ∧
    (qemuHelper.startBackupNbdServer env exportName diskFormat targetFile socketFile bitMap =
        qemuHelper.runcmd env
          (qemuHelper.startBackupNbdServerCmd exportName diskFormat targetFile socketFile
            bitMap)
          (some (socketFile ++ ".pid")) false ∧
      fileModeOnly env
        (qemuHelper.startBackupNbdServer env exportName diskFormat targetFile socketFile
          bitMap)) ∧
    (qemuHelper.startNbdkitProcess env verbose listenAddress listenPort exportName
        nbdkitModule blocksize blockMap fullImage threads =
        qemuHelper.runcmd env
          (qemuHelper.startNbdkitProcessCmdOf env verbose listenAddress listenPort exportName
            nbdkitModule blocksize blockMap fullImage threads)
          (some env.tmpPidName) false ∧
      fileModeOnly env
        (qemuHelper.startNbdkitProcess env verbose listenAddress listenPort exportName
          nbdkitModule blocksize blockMap fullImage threads)) ∧
    (qemuHelper.disconnect env device =
        qemuHelper.runcmd env (qemuHelper.disconnectCmd device) none false ∧
      fileModeOnly env (qemuHelper.disconnect env device)) :=
  ⟨⟨rfl, qemuHelper.runcmd_file_capture env _ none⟩,
   ⟨rfl, qemuHelper.runcmd_file_capture env _ none⟩,
   ⟨rfl, qemuHelper.runcmd_file_capture env _ (some (socketFile ++ ".pid"))⟩,
   ⟨rfl, qemuHelper.runcmd_file_capture env _ (some env.tmpPidName)⟩,
   ⟨rfl, qemuHelper.runcmd_file_capture env _ none⟩⟩

/-- C8 witness: a concrete successful `create` launch returns a handle with
the log path set and both captured fields absent. -/
theorem C8_witness :
    qemuHelper.create envFileOk3 "t.img" "1G" "qcow2" = .ok ⟨3, some "log8", none, none⟩ ∧
    ((⟨3, some "log8", none, none⟩ : processInfo).logFile = some envFileOk3.tmpLogName ∧
      (⟨3, some "log8", none, none⟩ : processInfo).err = none ∧
      (⟨3, some "log8", none, none⟩ : processInfo).out = none) :=
  ⟨rfl,
   (C8_public_ops_file_capture envFileOk3 "t.img" "1G" "qcow2" "e" "s" "d" false
       "a" "p" "m" "b" "bm" "f" "t" none).1.2
     ⟨3, some "log8", none, none⟩ rfl⟩

/-- C9: the map-extents operation bypasses the launcher protocol: it runs
the tool through `subprocess.run(shell=True, check=True)` with no `timeout`
argument (no wait bound), and a non-zero tool exit surfaces as
`CalledProcessError` — a different error kind than `ProcessError`. -/
theorem C9_map_bypasses_launcher {α : Type} (loads : String → Option α)
    (ctx : Option String) (uri : String) (o : ShellOutcome) (hrc : o.returncode ≠ 0) :
    mapRunKwargs.shell = true ∧ mapRunKwargs.check = true ∧ mapRunKwargs.timeout = none ∧
    qemuHelper.map loads ctx uri o =
      .error (.calledProcessError o.returncode (qemuHelper.mapCmd ctx uri) o.stderrData) ∧
    isProcessFailure (qemuHelper.map loads ctx uri o) = false ∧
    (∀ rc c s m, PyError.calledProcessError rc c s ≠ PyError.processError m) := by
  have hm : qemuHelper.map loads ctx uri o =
      .error (.calledProcessError o.returncode (qemuHelper.mapCmd ctx uri) o.stderrData) := by
    simp [qemuHelper.map, runShell, hrc]
  refine ⟨rfl, rfl, rfl, hm, ?_, fun rc c s m hc => PyError.noConfusion hc⟩
  rw [hm]
  rfl

/-- C9 witness: `nbdinfo` exits 1; the map call surfaces
`CalledProcessError`, not `ProcessError`. -/
theorem C9_witness :
    shellFail.returncode ≠ 0 ∧
    qemuHelper.map loadsEmptyList (some "ctx") "u" shellFail =
      .error (.calledProcessError shellFail.returncode
        (qemuHelper.mapCmd (some "ctx") "u") shellFail.stderrData) ∧
    isProcessFailure (qemuHelper.map loadsEmptyList (some "ctx") "u" shellFail) = false :=
  ⟨by decide,
   (C9_map_bypasses_launcher loadsEmptyList (some "ctx") "u" shellFail (by decide)).2.2.2.1,
   (C9_map_bypasses_launcher loadsEmptyList (some "ctx") "u" shellFail
     (by decide)).2.2.2.2.1⟩

/-- C10: on non-zero exit in pipe-capture mode both streams are drained and
stripped, but the raised `ProcessError` message embeds only the stripped
stderr text; the drained stdout is discarded — the outcome is identical for
any environment differing only in what the child wrote to stdout — and no
handle is returned. -/
theorem C10_pipe_failure_discards_stdout (env env2 : Env) (prog : String)
    (rest : List String) (pidFile : Option String) (rc : Int)
    (hw : env.waitResult = some rc) (hrc : rc ≠ 0) :
    qemuHelper.readpipe env = (pyStrip env.stdoutData, pyStrip env.stderrData) ∧
    qemuHelper.runcmd env (prog :: rest) pidFile true =
      .error (.processError
        ("Unable to start [" ++ prog ++ ("] error: [" ++ pyStrip env.stderrData ++ "]"))) ∧
    isHandle (qemuHelper.runcmd env (prog :: rest) pidFile true) = false ∧
    (env2.waitResult = some rc → env2.stderrData = env.stderrData →
      qemuHelper.runcmd env2 (prog :: rest) pidFile true =
        qemuHelper.runcmd env (prog :: rest) pidFile true) := by
  have h1 := qemuHelper.runcmd_nonzero_pipe env prog rest pidFile rc hw hrc
  refine ⟨rfl, h1, by rw [h1]; rfl, ?_⟩
  intro hw2 hs2
  rw [h1, qemuHelper.runcmd_nonzero_pipe env2 prog rest pidFile rc hw2 hrc, hs2]

/-- C10 witness: two concrete failing pipe-capture launches that differ only
in the child's stdout produce the identical `ProcessError`, whose message
embeds only the stderr text `E`. -/
theorem C10_witness :
    (envStdoutA.waitResult = some 2 ∧ (2 : Int) ≠ 0 ∧ envStdoutB.waitResult = some 2 ∧
      envStdoutB.stderrData = envStdoutA.stderrData ∧
      envStdoutB.stdoutData ≠ envStdoutA.stdoutData) ∧
    qemuHelper.runcmd envStdoutA ["x"] none true =
      .error (.processError
        ("Unable to start [" ++ "x" ++ ("] error: [" ++ pyStrip envStdoutA.stderrData ++ "]"))) ∧
    qemuHelper.runcmd envStdoutB ["x"] none true =
      qemuHelper.runcmd envStdoutA ["x"] none true :=
  ⟨⟨rfl, by decide, rfl, rfl, by decide⟩,
   (C10_pipe_failure_discards_stdout envStdoutA envStdoutB "x" [] none 2 rfl (by decide)).2.1,
   (C10_pipe_failure_discards_stdout envStdoutA envStdoutB "x" [] none 2 rfl
     (by decide)).2.2.2 rfl rfl⟩

end VirtNbdBackup
